import Mathlib

/-
  Verification development for the MLPCpp multi-layer-perceptron evaluation
  library (files CNeuralNetwork.cpp/.hpp, CLayer.hpp, CIOMap.cpp,
  CReadNeuralNetwork.cpp/.hpp).

  The engine's arithmetic is modelled over an arbitrary linearly ordered
  field `K` together with a record of the transcendental operations the
  activation functions use (`exp`, `tanh`, `cosh`).  The C++ source is
  deliberately type-agnostic in its scalar ("mlpdouble"/"su2double" is a
  typedef that may be `double` or an AD type), so this parametrisation
  mirrors the source; instantiating `K := ℚ` (with dummy transcendental
  fields, which the piecewise-linear activations never consult) gives fully
  computable models for concrete test networks, and `K := ℝ` with the real
  `exp`/`tanh`/`cosh` gives the analytic model.
-/

namespace MLPToolbox

/-- Record of the transcendental scalar operations used by the activation
functions (`exp`, `tanh`, `cosh` in the C++ source). -/
structure ScalarOps (K : Type) where
  exp : K → K
  tanh : K → K
  cosh : K → K

/-- Rational instantiation used for concrete executable test networks.  The
transcendental fields are irrelevant placeholders: the concrete networks in
this file only use the `LINEAR`/`RELU`/`NONE` activations, whose formulas
never consult them. -/
def ratOps : ScalarOps ℚ :=
  ⟨fun _ => 0, fun _ => 0, fun _ => 0⟩

/-- Modelled from the spec: `CNeuron.hpp` is not under `src/` (only its
caller `CLayer.hpp` is).  Per spec §3 a Neuron holds one scalar `input`,
one scalar `output`, one `bias`, and a `gradient` sequence indexed by
network-input position. -/
structure CNeuron (K : Type) where
  input : K
  output : K
  bias : K
  gradient : List K
  deriving DecidableEq

instance {K : Type} [Zero K] : Inhabited (CNeuron K) :=
  ⟨⟨0, 0, 0, []⟩⟩

/-- Mirror of `CLayer` (CLayer.hpp): an ordered collection of neurons.
The C++ class stores `number_of_neurons` separately but its constructor
keeps it equal to `neurons.size()`; `GetNNeurons` is modelled as the list
length. -/
structure CLayer (K : Type) where
  neurons : List (CNeuron K)
  deriving DecidableEq

instance {K : Type} : Inhabited (CLayer K) :=
  ⟨⟨[]⟩⟩

/-- Modelled from the spec: the `CLayer(n_neurons)` constructor body lives
in a file missing from `src/`; per spec §3 construction only sizes the
neuron sequence (values first become meaningful when written), so neurons
are taken zero-initialised. -/
def newLayer (K : Type) [Zero K] (n_neurons : ℕ) : CLayer K :=
  ⟨List.replicate n_neurons default⟩

/-- Mirror of `ENUM_ACTIVATION_FUNCTION` (CNeuralNetwork.hpp). -/
inductive ActivationKind where
  | NONE
  | LINEAR
  | RELU
  | ELU
  | GELU
  | SELU
  | SIGMOID
  | SWISH
  | TANH
  | EXPONENTIAL
  deriving DecidableEq

/-- The per-case output assignment `y` of the activation switch in
`CNeuralNetwork::Predict` (CNeuralNetwork.cpp lines 63-251), as a function
of the neuron input `x`. -/
def activationOutput {K : Type} [LinearOrderedField K] (ops : ScalarOps K)
    (t : ActivationKind) (x : K) : K :=
  match t with
  | .NONE => 0
  | .LINEAR => x
  | .RELU => if 0 < x then x else 0
  | .ELU => if 0 < x then x else ops.exp x - 1
  | .GELU => 0.5 * x * (1 + ops.tanh (0.7978845608028654 * (x + 0.044715 * x ^ 3)))
  | .SELU =>
      if 0 < x then (1.05070098 : K) * x
      else (1.05070098 : K) * 1.67326324 * (ops.exp x - 1)
  | .SIGMOID => 1 / (1 + ops.exp (-x))
  | .SWISH => x / (1 + ops.exp (-x))
  | .TANH => ops.tanh x
  | .EXPONENTIAL => ops.exp x

/-- The per-case gradient factor `dy_dx` of the activation switch in
`CNeuralNetwork::Predict` (CNeuralNetwork.cpp lines 63-251), as a function
of the neuron input `x`.  This is a verbatim transcription of the code,
including the `GELU` case's literal constants and its `pow(cosh(x), -2)`
factor. -/
def activationDeriv {K : Type} [LinearOrderedField K] (ops : ScalarOps K)
    (t : ActivationKind) (x : K) : K :=
  match t with
  | .NONE => 0
  | .LINEAR => 1
  | .RELU => if 0 < x then 1 else 0
  | .ELU => if 0 < x then 1 else ops.exp x
  | .GELU =>
      0.5 * (ops.tanh (0.0356774 * x ^ 3 + 0.797885 * x) +
        (0.107032 * x ^ 3 + 0.797885 * x) * (ops.cosh x ^ 2)⁻¹ *
          (0.0356774 * x ^ 3 + 0.797885 * x))
  | .SELU =>
      if 0 < x then (1.05070098 : K)
      else (1.05070098 : K) * 1.67326324 * ops.exp x
  | .SIGMOID => ops.exp (-x) / (ops.exp (-x) + 1) ^ 2
  | .SWISH => ops.exp x * (x + ops.exp x + 1) / (ops.exp x + 1) ^ 2
  | .TANH => 1 / ops.cosh x ^ 2
  | .EXPONENTIAL => 1

/-- Mirror of the evaluation-time state of `CNeuralNetwork`
(CNeuralNetwork.hpp).  In the C++ class `inputLayer`, `outputLayer` and the
entries of `hiddenLayers` alias the entries of `total_layers` (raw
pointers, wired up by `SizeWeights`), so the single list `total_layers`
carries the layer state; the input layer is its head and the output layer
its last element. -/
structure CNeuralNetwork (K : Type) where
  input_names : List String
  output_names : List String
  total_layers : List (CLayer K)
  weights_mat : List (List (List K))
  input_norm : List (K × K)
  output_norm : List (K × K)
  last_inputs : List K
  ANN_outputs : List K
  dOutputs_dInputs : List (List K)
  activation_function_types : List ActivationKind
  deriving DecidableEq

namespace CNeuralNetwork

/-- `GetOutput` of a layer's neuron (out-of-range reads are modelled by the
zero neuron; every access in the verified claims is in range). -/
def layerOutput {K : Type} [Zero K] (l : CLayer K) (i : ℕ) : K :=
  (l.neurons.getD i default).output

/-- `GetInput` of a layer's neuron. -/
def layerInput {K : Type} [Zero K] (l : CLayer K) (i : ℕ) : K :=
  (l.neurons.getD i default).input

/-- `GetdYdX` of a layer's neuron. -/
def layerGrad {K : Type} [Zero K] (l : CLayer K) (i k : ℕ) : K :=
  ((l.neurons.getD i default).gradient).getD k 0

/-- The input-normalisation expression of `Predict` (CNeuralNetwork.cpp
lines 27-28): `(inputs[i] - input_norm[i].first) /
(input_norm[i].second - input_norm[i].first)`. -/
def normalizedInput {K : Type} [LinearOrderedField K] (nn : CNeuralNetwork K)
    (inputs : List K) (i : ℕ) : K :=
  (inputs.getD i 0 - (nn.input_norm.getD i (0, 1)).1) /
    ((nn.input_norm.getD i (0, 1)).2 - (nn.input_norm.getD i (0, 1)).1)

/-- The `same_point` flag of `Predict` (CNeuralNetwork.cpp lines 24-37):
true iff for no input neuron `abs(x_norm - inputLayer->GetOutput(iNeuron))
> 0`, i.e. every normalised input coincides with the input layer's
currently stored output. -/
def samePoint {K : Type} [LinearOrderedField K] (nn : CNeuralNetwork K)
    (inputs : List K) : Bool :=
  (List.range (nn.total_layers.headD default).neurons.length).all fun i =>
    !(decide (0 < |nn.normalizedInput inputs i -
        layerOutput (nn.total_layers.headD default) i|))

/-- The input-layer update of the first loop of `Predict` (CNeuralNetwork.cpp
lines 26-37): store the normalised value as the neuron output and, when
gradients are requested, seed the diagonal gradient entry with
`1/(input_norm[i].second - input_norm[i].first)`. -/
def updateInputLayer {K : Type} [LinearOrderedField K] (nn : CNeuralNetwork K)
    (inputs : List K) (compute_gradient : Bool) : CLayer K :=
  let l0 := nn.total_layers.headD default
  ⟨(List.range l0.neurons.length).map fun i =>
    let n := l0.neurons.getD i default
    { n with
      output := nn.normalizedInput inputs i
      gradient :=
        if compute_gradient then
          n.gradient.set i
            (1 / ((nn.input_norm.getD i (0, 1)).2 - (nn.input_norm.getD i (0, 1)).1))
        else n.gradient }⟩

/-- Mirror of `CNeuralNetwork::ComputeX` (CNeuralNetwork.hpp lines 633-642),
localised to the previous layer and the weight row `w_i =
weights_mat[iLayer-1][iNeuron]`: the bias plus the weighted sum of the
previous layer's outputs. -/
def ComputeX {K : Type} [LinearOrderedField K] (w_i : List K) (prev : CLayer K)
    (b : K) : K :=
  b + ((List.range prev.neurons.length).map fun j =>
    w_i.getD j 0 * layerOutput prev j).sum

/-- Mirror of `CNeuralNetwork::ComputedOutputdInput` (CNeuralNetwork.hpp
lines 643-652), localised to the previous layer and the weight row:
the weighted sum of the previous layer's stored gradients w.r.t. network
input `k`. -/
def ComputedOutputdInput {K : Type} [LinearOrderedField K] (w_i : List K)
    (prev : CLayer K) (k : ℕ) : K :=
  ((List.range prev.neurons.length).map fun j =>
    w_i.getD j 0 * layerGrad prev j k).sum

/-- One non-input layer of the forward pass of `Predict` (CNeuralNetwork.cpp
lines 45-252): the first per-neuron loop stores the activation input
`ComputeX` and, when gradients are requested, overwrites every gradient
entry with `ComputedOutputdInput`; the activation-dispatch loop then stores
the activation output and multiplies every gradient entry by the activation
derivative factor `dy_dx`. -/
def layerForward {K : Type} [LinearOrderedField K] (ops : ScalarOps K)
    (nIn : ℕ) (compute_gradient : Bool) (w : List (List K))
    (t : ActivationKind) (prev cur : CLayer K) : CLayer K :=
  let afterX : CLayer K :=
    ⟨(List.range cur.neurons.length).map fun i =>
      let n := cur.neurons.getD i default
      { n with
        input := ComputeX (w.getD i []) prev n.bias
        gradient :=
          if compute_gradient then
            (List.range nIn).map fun k => ComputedOutputdInput (w.getD i []) prev k
          else n.gradient }⟩
  ⟨afterX.neurons.map fun n =>
    { n with
      output := activationOutput ops t n.input
      gradient :=
        if compute_gradient then
          (List.range nIn).map fun k => activationDeriv ops t n.input * n.gradient.getD k 0
        else n.gradient }⟩

/-- The layer loop of `Predict` (CNeuralNetwork.cpp line 45): traverse the
non-input layers in order, each consuming the previously updated layer.
`ws` is `weights_mat` (indexed by `iLayer - 1`) and `ts` is
`activation_function_types` shifted past the input layer. -/
def forwardLayers {K : Type} [LinearOrderedField K] (ops : ScalarOps K)
    (nIn : ℕ) (compute_gradient : Bool) :
    CLayer K → List (List (List K)) → List ActivationKind →
      List (CLayer K) → List (CLayer K)
  | _, _, _, [] => []
  | prev, ws, ts, cur :: rest =>
      let cur' := layerForward ops nIn compute_gradient (ws.getD 0 [])
        (ts.getD 0 .NONE) prev cur
      cur' :: forwardLayers ops nIn compute_gradient cur' ws.tail ts.tail rest

/-- The output-layer gradient rescaling of the de-normalisation loop of
`Predict` (CNeuralNetwork.cpp lines 259-266): every stored output-layer
gradient entry is multiplied by `(output_norm[o].second -
output_norm[o].first)` (this runs on every call, also when the forward pass
was skipped). -/
def rescaleOutputLayer {K : Type} [LinearOrderedField K]
    (output_norm : List (K × K)) (nIn : ℕ) (outLayer : CLayer K) : CLayer K :=
  ⟨(List.range outLayer.neurons.length).map fun o =>
    let n := outLayer.neurons.getD o default
    { n with
      gradient := (List.range nIn).map fun k =>
        ((output_norm.getD o (0, 1)).2 - (output_norm.getD o (0, 1)).1) *
          n.gradient.getD k 0 }⟩

/-- The layer states after steps 1-3 of `Predict`: the updated input layer
followed by the other layers, which are traversed by the forward pass
unless the point is bit-identical to the input layer's previously stored
outputs (`same_point`, CNeuralNetwork.cpp lines 38-40), in which case they
are left as they were. -/
def predictLayers1 {K : Type} [LinearOrderedField K] (ops : ScalarOps K)
    (nn : CNeuralNetwork K) (inputs : List K) (compute_gradient : Bool) :
    List (CLayer K) :=
  let nIn := (nn.total_layers.headD default).neurons.length
  let inputLayer1 := nn.updateInputLayer inputs compute_gradient
  if nn.samePoint inputs then inputLayer1 :: nn.total_layers.tail
  else inputLayer1 :: forwardLayers ops nIn compute_gradient inputLayer1
    nn.weights_mat (nn.activation_function_types.tail) nn.total_layers.tail

/-- Mirror of `CNeuralNetwork::Predict` (CNeuralNetwork.cpp lines 19-271).
Normalise the inputs and update the input layer; unless the point is
bit-identical to the input layer's stored outputs, run the forward pass
over the non-input layers (`predictLayers1`); finally de-normalise the
output layer's stored outputs into `ANN_outputs` and, when gradients are
requested, rescale the output layer's stored gradients and copy them into
`dOutputs_dInputs`.  (`last_inputs` is not touched anywhere in the
function.) -/
def Predict {K : Type} [LinearOrderedField K] (ops : ScalarOps K)
    (nn : CNeuralNetwork K) (inputs : List K) (compute_gradient : Bool) :
    CNeuralNetwork K :=
  let nIn := (nn.total_layers.headD default).neurons.length
  let layers1 := predictLayers1 ops nn inputs compute_gradient
  let outLayer := layers1.getLastD default
  let nOut := outLayer.neurons.length
  let outLayer2 :=
    if compute_gradient then rescaleOutputLayer nn.output_norm nIn outLayer
    else outLayer
  { nn with
    total_layers := layers1.dropLast ++ [outLayer2]
    ANN_outputs := (List.range nOut).map fun o =>
      layerOutput outLayer o *
        ((nn.output_norm.getD o (0, 1)).2 - (nn.output_norm.getD o (0, 1)).1) +
        (nn.output_norm.getD o (0, 1)).1
    dOutputs_dInputs :=
      if compute_gradient then
        (List.range nOut).map fun o =>
          (List.range nIn).map fun k => layerGrad outLayer2 o k
      else nn.dOutputs_dInputs }

/-- Mirror of `CNeuralNetwork::SizeInputs` (CNeuralNetwork.hpp lines
490-494): size the previous-inputs cache and zero-fill it.  This is the
only place in the class that writes `last_inputs`. -/
def SizeInputs {K : Type} [LinearOrderedField K] (nn : CNeuralNetwork K)
    (n_inputs : ℕ) : CNeuralNetwork K :=
  { nn with last_inputs := List.replicate n_inputs 0 }

end CNeuralNetwork

/-! ### Concrete built networks used as test inputs -/

/-- A zero-initialised neuron whose gradient storage has been sized for a
single network input, as `SizeGradients` leaves it. -/
def zNeuron : CNeuron ℚ :=
  { input := 0, output := 0, bias := 0, gradient := [0] }

/-- A concrete built network over `ℚ`: one input, one hidden neuron, one
output, all `LINEAR`, weights 1, biases 0, input normalisation `(0,1)`,
output normalisation `(0,2)`, `last_inputs` zero-filled by `SizeInputs`. -/
def net1 : CNeuralNetwork ℚ :=
  { input_names := ["x"], output_names := ["y"],
    total_layers := [⟨[zNeuron]⟩, ⟨[zNeuron]⟩, ⟨[zNeuron]⟩],
    weights_mat := [[[1]], [[1]]],
    input_norm := [(0, 1)], output_norm := [(0, 2)],
    last_inputs := [0], ANN_outputs := [0], dOutputs_dInputs := [[0]],
    activation_function_types := [.LINEAR, .LINEAR, .LINEAR] }

/-- Like `net1` but with a hidden bias of 1 and identity output
normalisation: the network function maps the normalised input `x` to
`x + 1`. -/
def net2 : CNeuralNetwork ℚ :=
  { input_names := ["x"], output_names := ["y"],
    total_layers := [⟨[zNeuron]⟩, ⟨[{ zNeuron with bias := 1 }]⟩, ⟨[zNeuron]⟩],
    weights_mat := [[[1]], [[1]]],
    input_norm := [(0, 1)], output_norm := [(0, 1)],
    last_inputs := [0], ANN_outputs := [0], dOutputs_dInputs := [[0]],
    activation_function_types := [.LINEAR, .LINEAR, .LINEAR] }

/-- The one-layer identity network of spec §8: linear activation, identity
weights, zero biases, input and output normalisation both `(a, b)`. -/
def idNet {K : Type} [LinearOrderedField K] (a b : K) : CNeuralNetwork K :=
  { input_names := ["x"], output_names := ["y"],
    total_layers := [⟨[⟨0, 0, 0, [0]⟩]⟩, ⟨[⟨0, 0, 0, [0]⟩]⟩, ⟨[⟨0, 0, 0, [0]⟩]⟩],
    weights_mat := [[[1]], [[1]]],
    input_norm := [(a, b)], output_norm := [(a, b)],
    last_inputs := [0], ANN_outputs := [0], dOutputs_dInputs := [[0]],
    activation_function_types := [.LINEAR, .LINEAR, .LINEAR] }

/-! ### The network-collection Selector (CIOMap) -/

/-- Modelled from the spec: `CLookUp_ANN` (the Collection) is not under
`src/`; per spec §2/§6 it owns the loaded networks and answers the index
queries used by the Selector.  Each network contributes its declared input
and output variable name lists. -/
structure CLookUpANN where
  networks : List (List String × List String)
  deriving DecidableEq

/-- The Collection's network count accessor `GetNANNs`. -/
def GetNANNs (c : CLookUpANN) : ℕ := c.networks.length

/-- Modelled from the spec: `CLookUp_ANN::FindVariableIndices` is not
under `src/` (it is the Collection query primitive of spec §6); per spec
§4.2 it returns the pairs `(callerIdx, networkIdx)` with
`varNames[callerIdx] == networkNames[networkIdx]`, preserving caller order
then network order. -/
def FindVariableIndices (c : CLookUpANN) (iMLP : ℕ) (varNames : List String)
    (isInputSide : Bool) : List (ℕ × ℕ) :=
  let netNames :=
    if isInputSide then (c.networks.getD iMLP ([], [])).1
    else (c.networks.getD iMLP ([], [])).2
  (List.range varNames.length).flatMap fun ci =>
    (List.range netNames.length).filterMap fun ni =>
      if varNames.getD ci "" = netNames.getD ni "" then some (ci, ni) else none

/-- The Selector's result data (the CIOMap state filled by
`PairVariableswithMLPs`). -/
structure CIOMap where
  MLP_indices : List ℕ
  Input_Map : List (List (ℕ × ℕ))
  Output_Map : List (List (ℕ × ℕ))
  deriving DecidableEq

/-- The selection filter of `CIOMap::PairVariableswithMLPs` (CIOMap.cpp
lines 47-68): a network index is kept iff its input match list and its
output match list are both non-empty (`isInput` and `isOutput`). -/
def selectedMLPs (c : CLookUpANN) (inputs outputs : List String) : List ℕ :=
  (List.range (GetNANNs c)).filter fun i =>
    !(FindVariableIndices c i inputs true).isEmpty &&
      !(FindVariableIndices c i outputs false).isEmpty

/-- Mirror of `CIOMap::PairVariableswithMLPs` (CIOMap.cpp lines 36-69):
walk the collection in index order and, for each network whose input and
output match lists are both non-empty, record the index and both match
lists. -/
def PairVariableswithMLPs (c : CLookUpANN) (inputs outputs : List String) :
    CIOMap :=
  { MLP_indices := selectedMLPs c inputs outputs
    Input_Map := (selectedMLPs c inputs outputs).map fun i =>
      FindVariableIndices c i inputs true
    Output_Map := (selectedMLPs c inputs outputs).map fun i =>
      FindVariableIndices c i outputs false }

/-- Modelled from the spec: `CLookUp_ANN::CheckUseOfInputs` is not under
`src/`; per spec §4.2 every name in the caller's inputs must appear as an
input of at least one selected network. -/
def CheckUseOfInputs (c : CLookUpANN) (inputs : List String) (m : CIOMap) :
    Bool :=
  inputs.all fun name =>
    m.MLP_indices.any fun i => ((c.networks.getD i ([], [])).1).contains name

/-- Modelled from the spec: `CLookUp_ANN::CheckUseOfOutputs` is not under
`src/`; per spec §4.2 every name in the caller's outputs must appear as an
output of at least one selected network. -/
def CheckUseOfOutputs (c : CLookUpANN) (outputs : List String) (m : CIOMap) :
    Bool :=
  outputs.all fun name =>
    m.MLP_indices.any fun i => ((c.networks.getD i ([], [])).2).contains name

/-- Mirror of the `CIOMap` constructor (CIOMap.cpp lines 18-35): pair the
variables with the collection's networks, then run the two consistency
checks only when the caller's output list is non-empty; a failed check is
the reportable configuration error of spec §7. -/
def mkCIOMap (c : CLookUpANN) (inputs outputs : List String) :
    Except String CIOMap :=
  let m := PairVariableswithMLPs c inputs outputs
  if outputs.length > 0 then
    if !(CheckUseOfInputs c inputs m) then
      .error "a caller input is used by no selected network"
    else if !(CheckUseOfOutputs c outputs m) then
      .error "a caller output is present in no selected network"
    else .ok m
  else .ok m

/-- A one-network collection: inputs `{"T"}`, outputs `{"rho"}`. -/
def collC3 : CLookUpANN := ⟨[(["T"], ["rho"])]⟩

/-- The two-network collection of spec §8: Net A with inputs `{"T","p"}`
and outputs `{"rho"}`, Net B with inputs `{"T","p","Y"}` and outputs
`{"mu"}`. -/
def collC4 : CLookUpANN :=
  ⟨[(["T", "p"], ["rho"]), (["T", "p", "Y"], ["mu"])]⟩

/-! ### The MLP definition-file reader (header phase) -/

/-- Outcome of a modelled parser step: a normal result, a thrown
`std::invalid_argument` (`thrown`), or an out-of-bounds
`std::vector::operator[]` access (`oob`), which in C++ is undefined
behaviour and in particular not a raised error. -/
inductive ReadOutcome (α : Type) where
  | ok (a : α)
  | thrown (msg : String)
  | oob
  deriving DecidableEq

/-- The reader state of `CReadNeuralNetwork` (CReadNeuralNetwork.hpp)
relevant to the header phase, together with the parse flags
`found_layercount`/`found_input_names`/`found_output_names` that are local
variables of `ReadMLPFile`.  `input_norm_size`/`output_norm_size` record
the lengths to which `input_norm`/`output_norm` have been resized (their
parsed numeric contents are not needed by any claim and are not
retained). -/
structure CReadNeuralNetwork where
  n_layers : ℕ
  n_neurons : List ℕ
  activation_functions : List String
  input_names : List String
  output_names : List String
  input_norm_size : ℕ
  output_norm_size : ℕ
  found_layercount : Bool
  found_input_names : Bool
  found_output_names : Bool
  deriving DecidableEq

/-- The reader state at entry of `ReadMLPFile` (all flags false, all
containers empty). -/
def initReadState : CReadNeuralNetwork :=
  ⟨0, [], [], [], [], 0, 0, false, false, false⟩

/-- `stoul` applied to each line of a block: a non-numeric line (also the
empty line produced by reading past the end of the file) throws, modelled
by `none`. -/
def parseNatLines (l : List String) : Option (List ℕ) :=
  l.mapM String.toNat?

/-- The first whitespace token of a line, as `istringstream >> word`
extracts it (an empty line yields the empty token). -/
def firstWord (s : String) : String :=
  (s.splitOn " ").headD ""

/-- Mirror of `CReadNeuralNetwork::SkipToFlag` (CReadNeuralNetwork.cpp
lines 191-206): advance the stream past the first line equal to `flag`.
When the flag is absent the stream is exhausted; the C++ code only prints
"line not in file!" and returns, so this is not an error outcome. -/
def SkipToFlag : List String → String → List String
  | [], _ => []
  | l :: rest, flag => if l = flag then rest else SkipToFlag rest flag

/-- The header `while` loop of `CReadNeuralNetwork::ReadMLPFile`
(CReadNeuralNetwork.cpp lines 34-154), over the list of remaining lines.
Each bracketed tag consumes the following lines its C++ handler reads with
`getline`; reading past the end of the list yields `""` (the `getline`
failure mode).  The `[neurons per layer]` handler's normalisation-sizing
reads `n_neurons[0]` and `n_neurons[size-1]` (lines 69-76), and the name
handlers read `n_neurons[0]` resp. `n_neurons[size()-1]` for their
`resize` calls (lines 96, 122); each of these subscripts is modelled by a
checked access whose out-of-range failure is the `oob` outcome.  The
`[output names]` handler retains the (vacuously dead) size-mismatch check
of lines 129-132. -/
def headerLoop : CReadNeuralNetwork → List String → ReadOutcome CReadNeuralNetwork
  | st, [] => .ok st
  | st, line :: rest =>
    if line = "[number of layers]" then
      match (rest.getD 0 "").toNat? with
      | none => .thrown "stoul: invalid argument"
      | some n =>
          headerLoop
            { st with
                n_layers := n
                n_neurons := List.replicate n 0
                activation_functions := List.replicate n ""
                found_layercount := true }
            (rest.drop 1)
    else if line = "[neurons per layer]" then
      if !st.found_layercount then
        .thrown "No layer count provided before defining neuron count per layer"
      else
        match parseNatLines ((List.range st.n_layers).map fun i => rest.getD i "") with
        | none => .thrown "stoul: invalid argument"
        | some ns =>
            match ns.get? 0, ns.get? (ns.length - 1) with
            | some n0, some nl =>
                headerLoop
                  { st with
                      n_neurons := ns
                      input_norm_size := n0
                      output_norm_size := nl }
                  (rest.drop st.n_layers)
            | _, _ => .oob
    else if line = "[activation function]" then
      if !st.found_layercount then
        .thrown "No layer count provided before providing layer activation functions"
      else
        headerLoop
          { st with activation_functions :=
              (List.range st.n_layers).map fun i => firstWord (rest.getD i "") }
          (rest.drop st.n_layers)
    else if line = "[input names]" then
      match st.n_neurons.get? 0 with
      | none => .oob
      | some n0 =>
          headerLoop
            { st with
                found_input_names := true
                input_names := (List.range n0).map fun i => rest.getD i "" }
            (rest.drop n0)
    else if line = "[input normalization]" then
      headerLoop st (rest.drop st.input_norm_size)
    else if line = "[output names]" then
      match st.n_neurons.get? (st.n_neurons.length - 1) with
      | none => .oob
      | some nl =>
          let names := (List.range nl).map fun i => rest.getD i ""
          if names.length ≠ nl then
            .thrown "No layer count provided before providing layer activation functions"
          else
            headerLoop
              { st with
                  found_output_names := true
                  output_names := names }
              (rest.drop nl)
    else if line = "[output normalization]" then
      headerLoop st (rest.drop st.output_norm_size)
    else if line = "</header>" then .ok st
    else headerLoop st rest
  termination_by _ lines => lines.length
  decreasing_by
    all_goals simp only [List.length_drop, List.length_cons]
    all_goals omega

/-- The post-header error checks of `ReadMLPFile` (CReadNeuralNetwork.cpp
lines 156-162): missing input-name or output-name blocks are thrown
errors (the C++ message for missing output names is a copy-paste of the
input-name one). -/
def finalChecks (st : CReadNeuralNetwork) : ReadOutcome CReadNeuralNetwork :=
  if !st.found_input_names then .thrown "No MLP input variable names provided"
  else if !st.found_output_names then .thrown "No MLP input variable names provided"
  else .ok st

/-- Mirror of `CReadNeuralNetwork::ReadMLPFile`
(CReadNeuralNetwork.cpp lines 19-189) restricted to the header phase:
skip to `<header>`, run the header loop, then run the post-header checks.
The weight/bias reading phases (lines 164-188) perform no error checks of
their own — `SkipToFlag` merely prints on a missing flag and the read
loops never test the stream state — and are outside the modelled scope. -/
def ReadMLPFile (lines : List String) : ReadOutcome CReadNeuralNetwork :=
  match headerLoop initReadState (SkipToFlag lines "<header>") with
  | .ok st => finalChecks st
  | r => r

/-! ### The builder sequence and SizeWeights -/

/-- Build-phase state of `CNeuralNetwork`: the separately owned layer
pointers populated by the builder sequence of spec §6 (a null pointer is
`none`), before `SizeWeights` wires up `total_layers`. -/
structure MLPBuild (K : Type) where
  inputLayer : Option (CLayer K) := none
  outputLayer : Option (CLayer K) := none
  hiddenLayers : List (CLayer K) := []
  n_hidden_layers : ℕ := 0
  input_norm : List (K × K) := []
  output_norm : List (K × K) := []
  input_names : List String := []
  output_names : List String := []
  activation_function_types : List ActivationKind := []

/-- The freshly constructed `CNeuralNetwork` (all pointers null, no hidden
layers). -/
def emptyBuild (K : Type) : MLPBuild K := {}

/-- Mirror of `CNeuralNetwork::DefineInputLayer` (CNeuralNetwork.cpp lines
273-281).  The `resize` calls value-initialise, so the fresh norm pairs
are `(0,0)` and the fresh names empty (they are overwritten by the loader
before evaluation). -/
def DefineInputLayer {K : Type} [LinearOrderedField K] (b : MLPBuild K)
    (n_neurons : ℕ) : MLPBuild K :=
  { b with inputLayer := some (newLayer K n_neurons),
           input_norm := List.replicate n_neurons (0, 0),
           input_names := List.replicate n_neurons "" }

/-- Mirror of `CNeuralNetwork::DefineOutputLayer` (CNeuralNetwork.cpp lines
283-288). -/
def DefineOutputLayer {K : Type} [LinearOrderedField K] (b : MLPBuild K)
    (n_neurons : ℕ) : MLPBuild K :=
  { b with outputLayer := some (newLayer K n_neurons),
           output_norm := List.replicate n_neurons (0, 0),
           output_names := List.replicate n_neurons "" }

/-- Mirror of `CNeuralNetwork::PushHiddenLayer` (CNeuralNetwork.cpp lines
290-295): append a hidden layer and bump `n_hidden_layers`. -/
def PushHiddenLayer {K : Type} [LinearOrderedField K] (b : MLPBuild K)
    (n_neurons : ℕ) : MLPBuild K :=
  { b with hiddenLayers := b.hiddenLayers ++ [newLayer K n_neurons],
           n_hidden_layers := b.n_hidden_layers + 1 }

/-- Mirror of `CNeuralNetwork::SizeWeights` (CNeuralNetwork.cpp lines
297-336).  Every container subscript of the C++ function is modelled by an
in-bounds-checked access (dereference of a possibly-null layer pointer
included): the function unconditionally reads `hiddenLayers[0]` (lines
310-312) and `hiddenLayers[n_hidden_layers - 1]` (line 325), and the
middle loop reads `hiddenLayers[iLayer]` and `hiddenLayers[iLayer - 1]`
for `1 ≤ iLayer < n_hidden_layers`.  On success it produces the
evaluation-time view of the network: `total_layers` is input layer, hidden
layers, output layer in order; the weight matrices are sized and
zero-filled (C++ `resize` value-initialises); `ANN_outputs` (a raw `new`
array in C++, taken zero here) and `dOutputs_dInputs` are sized to the
output count; and `SizeGradients` sizes every neuron's gradient store to
the input count. -/
def SizeWeights {K : Type} [LinearOrderedField K] (b : MLPBuild K) :
    Option (CNeuralNetwork K) := do
  let inL ← b.inputLayer
  let outL ← b.outputLayer
  let total := inL :: b.hiddenLayers ++ [outL]
  let h0 ← b.hiddenLayers.get? 0
  let w0 : List (List K) :=
    List.replicate h0.neurons.length (List.replicate inL.neurons.length 0)
  let middle ← (List.range (b.n_hidden_layers - 1)).mapM fun i => do
    let cur ← b.hiddenLayers.get? (i + 1)
    let prev ← b.hiddenLayers.get? i
    pure (List.replicate cur.neurons.length
      (List.replicate prev.neurons.length (0 : K)))
  let hLast ← b.hiddenLayers.get? (b.n_hidden_layers - 1)
  let wLast : List (List K) :=
    List.replicate outL.neurons.length (List.replicate hLast.neurons.length 0)
  let nIn := inL.neurons.length
  pure
    { input_names := b.input_names, output_names := b.output_names,
      total_layers := total.map fun lay =>
        ⟨lay.neurons.map fun n => { n with gradient := List.replicate nIn 0 }⟩,
      weights_mat := w0 :: middle ++ [wLast],
      input_norm := b.input_norm, output_norm := b.output_norm,
      last_inputs := [],
      ANN_outputs := List.replicate outL.neurons.length 0,
      dOutputs_dInputs :=
        List.replicate outL.neurons.length (List.replicate nIn 0),
      activation_function_types := b.activation_function_types }

/-- The builder sequence of spec §6: define the input layer, push the
hidden layers in order, define the output layer. -/
def buildNetwork (K : Type) [LinearOrderedField K] (nIn : ℕ) (hs : List ℕ)
    (nOut : ℕ) : MLPBuild K :=
  DefineOutputLayer
    (hs.foldl (fun b n => PushHiddenLayer b n)
      (DefineInputLayer (emptyBuild K) nIn)) nOut

/-! ### Generic list lemmas used throughout -/

lemma getD_range_map {α : Type _} (g : ℕ → α) {n i : ℕ} (h : i < n) (d : α) :
    ((List.range n).map g).getD i d = g i := by
  simp [List.getD_eq_getElem?_getD, List.getElem?_range h]

lemma getD_map_range_map {α β : Type _} (f : ℕ → α) (g : α → β) {n i : ℕ}
    (h : i < n) (d : β) :
    (((List.range n).map f).map g).getD i d = g (f i) := by
  rw [List.map_map]
  exact getD_range_map _ h d

lemma tail_getD {α : Type _} (l : List α) (n : ℕ) (d : α) :
    l.tail.getD n d = l.getD (n + 1) d := by
  cases l <;> rfl

lemma getD_append_left {α : Type _} {l1 l2 : List α} {i : ℕ} (h : i < l1.length)
    (d : α) : (l1 ++ l2).getD i d = l1.getD i d := by
  simp [List.getD_eq_getElem?_getD, List.getElem?_append_left h]

lemma getD_append_right {α : Type _} {l1 l2 : List α} {i : ℕ} (h : l1.length ≤ i)
    (d : α) : (l1 ++ l2).getD i d = l2.getD (i - l1.length) d := by
  simp [List.getD_eq_getElem?_getD, List.getElem?_append_right h]

lemma getD_replicate {α : Type _} {n i : ℕ} (h : i < n) (x d : α) :
    (List.replicate n x).getD i d = x := by
  simp [List.getD_eq_getElem?_getD, List.getElem?_replicate_of_lt h]

lemma getD_of_lt {α : Type _} (l : List α) {i : ℕ} (h : i < l.length) (d : α) :
    l.getD i d = l.get ⟨i, h⟩ := by
  simp [List.getD_eq_getElem?_getD, List.getElem?_eq_getElem h]

lemma getD_dropLast_append {α : Type _} (l1 : List α) (x d : α) {i : ℕ}
    (h : i + 1 < l1.length) :
    (l1.dropLast ++ [x]).getD i d = l1.getD i d := by
  rw [List.getD_eq_getElem?_getD,
    List.getElem?_append_left (by simp only [List.length_dropLast]; omega),
    List.dropLast_eq_take, List.getElem?_take_of_lt (by omega),
    ← List.getD_eq_getElem?_getD]

lemma getD_dropLast_append_last {α : Type _} (l1 : List α) (x d : α) :
    (l1.dropLast ++ [x]).getD (l1.length - 1) d = x := by
  rcases l1 with _ | ⟨a, t⟩
  · rfl
  · rw [List.getD_eq_getElem?_getD, List.getElem?_append_right (by simp)]
    simp

lemma getD_dropLast_append_last' {α : Type _} (l1 : List α) (x d : α) {n : ℕ}
    (h : n = l1.length - 1) :
    (l1.dropLast ++ [x]).getD n d = x := by
  rw [h]
  exact getD_dropLast_append_last l1 x d

lemma getLastD_eq_getD {α : Type _} (l : List α) (d : α) :
    l.getLastD d = l.getD (l.length - 1) d := by
  rw [List.getLastD_eq_getLast?, List.getLast?_eq_getElem?, ← List.getD_eq_getElem?_getD]

lemma mapM_eq_some_map {β : Type _} (f : ℕ → Option β) (g : ℕ → β) (l : List ℕ)
    (h : ∀ i ∈ l, f i = some (g i)) : l.mapM f = some (l.map g) := by
  induction l with
  | nil => rfl
  | cons a t ih =>
      simp only [List.mapM_cons, h a (by simp), List.map_cons,
        ih fun i hi => h i (by simp [hi])]
      rfl

namespace CNeuralNetwork

/-! ### Helper lemmas about the evaluation model -/

lemma updateInputLayer_length {K : Type} [LinearOrderedField K]
    (nn : CNeuralNetwork K) (inputs : List K) (cg : Bool) :
    (nn.updateInputLayer inputs cg).neurons.length =
      (nn.total_layers.headD default).neurons.length := by
  simp [updateInputLayer]

lemma layerOutput_updateInputLayer {K : Type} [LinearOrderedField K]
    (nn : CNeuralNetwork K) (inputs : List K) (cg : Bool) {i : ℕ}
    (h : i < (nn.total_layers.headD default).neurons.length) :
    layerOutput (nn.updateInputLayer inputs cg) i = nn.normalizedInput inputs i := by
  simp only [updateInputLayer, layerOutput]
  rw [getD_range_map _ h]

lemma layerGrad_updateInputLayer_true {K : Type} [LinearOrderedField K]
    (nn : CNeuralNetwork K) (inputs : List K) {i : ℕ} (k : ℕ)
    (h : i < (nn.total_layers.headD default).neurons.length) :
    layerGrad (nn.updateInputLayer inputs true) i k =
      (((nn.total_layers.headD default).neurons.getD i default).gradient.set i
        (1 / ((nn.input_norm.getD i (0, 1)).2 - (nn.input_norm.getD i (0, 1)).1))).getD k 0 := by
  simp only [updateInputLayer, layerGrad]
  rw [getD_range_map _ h]
  simp

lemma layerForward_length {K : Type} [LinearOrderedField K] (ops : ScalarOps K)
    (nIn : ℕ) (cg : Bool) (w : List (List K)) (t : ActivationKind)
    (prev cur : CLayer K) :
    (layerForward ops nIn cg w t prev cur).neurons.length = cur.neurons.length := by
  simp [layerForward]

lemma layerInput_layerForward {K : Type} [LinearOrderedField K] (ops : ScalarOps K)
    (nIn : ℕ) (cg : Bool) (w : List (List K)) (t : ActivationKind)
    (prev cur : CLayer K) {i : ℕ} (h : i < cur.neurons.length) :
    layerInput (layerForward ops nIn cg w t prev cur) i =
      ComputeX (w.getD i []) prev ((cur.neurons.getD i default).bias) := by
  simp only [layerForward, layerInput]
  rw [getD_map_range_map _ _ h]

lemma layerOutput_layerForward {K : Type} [LinearOrderedField K] (ops : ScalarOps K)
    (nIn : ℕ) (cg : Bool) (w : List (List K)) (t : ActivationKind)
    (prev cur : CLayer K) {i : ℕ} (h : i < cur.neurons.length) :
    layerOutput (layerForward ops nIn cg w t prev cur) i =
      activationOutput ops t (layerInput (layerForward ops nIn cg w t prev cur) i) := by
  simp only [layerForward, layerOutput, layerInput]
  rw [getD_map_range_map _ _ h]

lemma layerGrad_layerForward_true {K : Type} [LinearOrderedField K] (ops : ScalarOps K)
    (nIn : ℕ) (w : List (List K)) (t : ActivationKind)
    (prev cur : CLayer K) {i k : ℕ} (h : i < cur.neurons.length) (hk : k < nIn) :
    layerGrad (layerForward ops nIn true w t prev cur) i k =
      activationDeriv ops t (layerInput (layerForward ops nIn true w t prev cur) i) *
        ComputedOutputdInput (w.getD i []) prev k := by
  simp only [layerForward, layerGrad, layerInput]
  rw [getD_map_range_map _ _ h]
  simp only [if_true]
  rw [getD_range_map _ hk, getD_range_map _ hk]

lemma forwardLayers_length {K : Type} [LinearOrderedField K] (ops : ScalarOps K)
    (nIn : ℕ) (cg : Bool) (prev : CLayer K) (ws : List (List (List K)))
    (ts : List ActivationKind) (rest : List (CLayer K)) :
    (forwardLayers ops nIn cg prev ws ts rest).length = rest.length := by
  induction rest generalizing prev ws ts with
  | nil => rfl
  | cons cur rest ih => simp [forwardLayers, ih]

lemma forwardLayers_getD {K : Type} [LinearOrderedField K] (ops : ScalarOps K)
    (nIn : ℕ) (cg : Bool) (prev : CLayer K) (ws : List (List (List K)))
    (ts : List ActivationKind) (rest : List (CLayer K)) {l : ℕ}
    (h : l < rest.length) :
    (forwardLayers ops nIn cg prev ws ts rest).getD l default =
      layerForward ops nIn cg (ws.getD l []) (ts.getD l .NONE)
        (if l = 0 then prev
         else (forwardLayers ops nIn cg prev ws ts rest).getD (l - 1) default)
        (rest.getD l default) := by
  induction rest generalizing prev ws ts l with
  | nil => exact absurd h (by simp)
  | cons cur rest ih =>
      cases l with
      | zero =>
          simp [forwardLayers]
      | succ m =>
          have hm : m < rest.length := by simpa using h
          have hrec := ih (layerForward ops nIn cg (ws.getD 0 [])
              (ts.getD 0 .NONE) prev cur) ws.tail ts.tail hm
          simp only [forwardLayers, List.getD_cons_succ]
          rw [hrec, tail_getD, tail_getD]
          cases m with
          | zero => simp [forwardLayers]
          | succ p =>
              simp only [Nat.succ_sub_one, List.getD_cons_succ]
              rfl

lemma rescaleOutputLayer_length {K : Type} [LinearOrderedField K]
    (output_norm : List (K × K)) (nIn : ℕ) (lay : CLayer K) :
    (rescaleOutputLayer output_norm nIn lay).neurons.length = lay.neurons.length := by
  simp [rescaleOutputLayer]

lemma layerOutput_rescaleOutputLayer {K : Type} [LinearOrderedField K]
    (output_norm : List (K × K)) (nIn : ℕ) (lay : CLayer K) (o : ℕ) :
    layerOutput (rescaleOutputLayer output_norm nIn lay) o = layerOutput lay o := by
  by_cases h : o < lay.neurons.length
  · simp only [rescaleOutputLayer, layerOutput]
    rw [getD_range_map _ h]
  · simp only [rescaleOutputLayer, layerOutput]
    rw [List.getD_eq_getElem?_getD, List.getD_eq_getElem?_getD,
      List.getElem?_eq_none, List.getElem?_eq_none] <;>
      simp [Nat.le_of_not_lt h]

lemma layerInput_rescaleOutputLayer {K : Type} [LinearOrderedField K]
    (output_norm : List (K × K)) (nIn : ℕ) (lay : CLayer K) (o : ℕ) :
    layerInput (rescaleOutputLayer output_norm nIn lay) o = layerInput lay o := by
  by_cases h : o < lay.neurons.length
  · simp only [rescaleOutputLayer, layerInput]
    rw [getD_range_map _ h]
  · simp only [rescaleOutputLayer, layerInput]
    rw [List.getD_eq_getElem?_getD, List.getD_eq_getElem?_getD,
      List.getElem?_eq_none, List.getElem?_eq_none] <;>
      simp [Nat.le_of_not_lt h]

lemma layerGrad_rescaleOutputLayer {K : Type} [LinearOrderedField K]
    (output_norm : List (K × K)) (nIn : ℕ) (lay : CLayer K) {o k : ℕ}
    (ho : o < lay.neurons.length) (hk : k < nIn) :
    layerGrad (rescaleOutputLayer output_norm nIn lay) o k =
      ((output_norm.getD o (0, 1)).2 - (output_norm.getD o (0, 1)).1) *
        layerGrad lay o k := by
  simp only [rescaleOutputLayer, layerGrad]
  rw [getD_range_map _ ho, getD_range_map _ hk]

lemma Predict_last_inputs {K : Type} [LinearOrderedField K] (ops : ScalarOps K)
    (nn : CNeuralNetwork K) (inputs : List K) (cg : Bool) :
    (Predict ops nn inputs cg).last_inputs = nn.last_inputs := rfl

/-- `samePoint` holds exactly when every normalised input coincides with the
input layer's currently stored output. -/
lemma samePoint_eq_true_iff {K : Type} [LinearOrderedField K]
    (nn : CNeuralNetwork K) (inputs : List K) :
    nn.samePoint inputs = true ↔
      ∀ i < (nn.total_layers.headD default).neurons.length,
        nn.normalizedInput inputs i = layerOutput (nn.total_layers.headD default) i := by
  simp only [samePoint, List.all_eq_true, List.mem_range, Bool.not_eq_true',
    decide_eq_false_iff_not, not_lt, abs_nonpos_iff, sub_eq_zero]

lemma predictLayers1_eq_same {K : Type} [LinearOrderedField K] (ops : ScalarOps K)
    (nn : CNeuralNetwork K) (inputs : List K) (cg : Bool)
    (h : nn.samePoint inputs = true) :
    predictLayers1 ops nn inputs cg =
      nn.updateInputLayer inputs cg :: nn.total_layers.tail := by
  simp [predictLayers1, h]

lemma predictLayers1_eq_forward {K : Type} [LinearOrderedField K] (ops : ScalarOps K)
    (nn : CNeuralNetwork K) (inputs : List K) (cg : Bool)
    (h : nn.samePoint inputs = false) :
    predictLayers1 ops nn inputs cg =
      nn.updateInputLayer inputs cg ::
        forwardLayers ops ((nn.total_layers.headD default).neurons.length) cg
          (nn.updateInputLayer inputs cg) nn.weights_mat
          (nn.activation_function_types.tail) nn.total_layers.tail := by
  simp [predictLayers1, h]

lemma predictLayers1_length {K : Type} [LinearOrderedField K] (ops : ScalarOps K)
    (nn : CNeuralNetwork K) (inputs : List K) (cg : Bool)
    (hL : 1 ≤ nn.total_layers.length) :
    (predictLayers1 ops nn inputs cg).length = nn.total_layers.length := by
  by_cases h : nn.samePoint inputs
  · rw [predictLayers1_eq_same ops nn inputs cg h]
    simp only [List.length_cons, List.length_tail]
    omega
  · rw [predictLayers1_eq_forward ops nn inputs cg (Bool.not_eq_true _ ▸ h)]
    simp only [List.length_cons, forwardLayers_length, List.length_tail]
    omega

lemma predictLayers1_getD_zero {K : Type} [LinearOrderedField K] (ops : ScalarOps K)
    (nn : CNeuralNetwork K) (inputs : List K) (cg : Bool) :
    (predictLayers1 ops nn inputs cg).getD 0 default =
      nn.updateInputLayer inputs cg := by
  by_cases h : nn.samePoint inputs
  · rw [predictLayers1_eq_same ops nn inputs cg h]; rfl
  · rw [predictLayers1_eq_forward ops nn inputs cg (Bool.not_eq_true _ ▸ h)]; rfl

lemma predictLayers1_getD_same {K : Type} [LinearOrderedField K] (ops : ScalarOps K)
    (nn : CNeuralNetwork K) (inputs : List K) (cg : Bool)
    (h : nn.samePoint inputs = true) {l : ℕ} (hl : 1 ≤ l) :
    (predictLayers1 ops nn inputs cg).getD l default =
      nn.total_layers.getD l default := by
  obtain ⟨m, rfl⟩ : ∃ m, l = m + 1 := ⟨l - 1, by omega⟩
  rw [predictLayers1_eq_same ops nn inputs cg h, List.getD_cons_succ, tail_getD]

lemma predictLayers1_getD_forward {K : Type} [LinearOrderedField K] (ops : ScalarOps K)
    (nn : CNeuralNetwork K) (inputs : List K) (cg : Bool)
    (h : nn.samePoint inputs = false) {l : ℕ} (hl : 1 ≤ l)
    (hL : l < nn.total_layers.length) :
    (predictLayers1 ops nn inputs cg).getD l default =
      layerForward ops ((nn.total_layers.headD default).neurons.length) cg
        (nn.weights_mat.getD (l - 1) [])
        (nn.activation_function_types.getD l .NONE)
        ((predictLayers1 ops nn inputs cg).getD (l - 1) default)
        (nn.total_layers.getD l default) := by
  obtain ⟨m, rfl⟩ : ∃ m, l = m + 1 := ⟨l - 1, by omega⟩
  have hm : m < nn.total_layers.tail.length := by
    simp only [List.length_tail]; omega
  rw [predictLayers1_eq_forward ops nn inputs cg h, List.getD_cons_succ,
    forwardLayers_getD _ _ _ _ _ _ _ hm, tail_getD, tail_getD]
  simp only [Nat.add_sub_cancel]
  cases m with
  | zero => rfl
  | succ p =>
      simp only [Nat.succ_ne_zero, if_false, Nat.succ_sub_one, List.getD_cons_succ]

lemma Predict_total_layers {K : Type} [LinearOrderedField K] (ops : ScalarOps K)
    (nn : CNeuralNetwork K) (inputs : List K) (cg : Bool) :
    (Predict ops nn inputs cg).total_layers =
      (predictLayers1 ops nn inputs cg).dropLast ++
        [if cg then
            rescaleOutputLayer nn.output_norm
              ((nn.total_layers.headD default).neurons.length)
              ((predictLayers1 ops nn inputs cg).getLastD default)
          else (predictLayers1 ops nn inputs cg).getLastD default] := rfl

lemma Predict_ANN_outputs {K : Type} [LinearOrderedField K] (ops : ScalarOps K)
    (nn : CNeuralNetwork K) (inputs : List K) (cg : Bool) :
    (Predict ops nn inputs cg).ANN_outputs =
      (List.range ((predictLayers1 ops nn inputs cg).getLastD default).neurons.length).map
        fun o =>
          layerOutput ((predictLayers1 ops nn inputs cg).getLastD default) o *
            ((nn.output_norm.getD o (0, 1)).2 - (nn.output_norm.getD o (0, 1)).1) +
            (nn.output_norm.getD o (0, 1)).1 := rfl

lemma Predict_dOutputs_dInputs {K : Type} [LinearOrderedField K] (ops : ScalarOps K)
    (nn : CNeuralNetwork K) (inputs : List K) :
    (Predict ops nn inputs true).dOutputs_dInputs =
      (List.range ((predictLayers1 ops nn inputs true).getLastD default).neurons.length).map
        fun o =>
          (List.range ((nn.total_layers.headD default).neurons.length)).map fun k =>
            layerGrad
              (rescaleOutputLayer nn.output_norm
                ((nn.total_layers.headD default).neurons.length)
                ((predictLayers1 ops nn inputs true).getLastD default)) o k := rfl

/-! ### Claims about the evaluation engine -/

/-- C7 counterexample: `Predict` does not overwrite `last_inputs` with the
raw input vector of the call — after `Predict(net1, [5])` the member still
holds the `[0]` left by `SizeInputs`, not `[5]`. -/
theorem C7_counterexample_last_inputs_not_written :
    (Predict ratOps net1 [5] false).last_inputs = [0] ∧
    (Predict ratOps net1 [5] false).last_inputs ≠ [5] := by
  have h := Predict_last_inputs ratOps net1 [5] false
  refine ⟨h, ?_⟩
  rw [h]
  norm_num [net1]

/-- C7 (amended): every call to `Predict` overwrites the input layer's
normalized outputs, the non-input neurons' state, `ANN_outputs` and (if
requested) `dOutputs_dInputs`, but `last_inputs` is left unchanged —
`Predict` never writes it; the only writer of `last_inputs` in the class
is `SizeInputs`, which zero-fills it. -/
theorem C7_predict_overwrites_all_but_last_inputs {K : Type}
    [LinearOrderedField K] (ops : ScalarOps K) (nn : CNeuralNetwork K)
    (inputs : List K) (cg : Bool) (hL : 2 ≤ nn.total_layers.length) :
    (Predict ops nn inputs cg).last_inputs = nn.last_inputs ∧
    (∀ n : ℕ, (nn.SizeInputs n).last_inputs = List.replicate n 0) ∧
    (Predict ops nn inputs cg).total_layers.getD 0 default =
      nn.updateInputLayer inputs cg ∧
    (∀ i < (nn.total_layers.headD default).neurons.length,
      layerOutput ((Predict ops nn inputs cg).total_layers.getD 0 default) i =
        nn.normalizedInput inputs i) ∧
    (Predict ops nn inputs cg).ANN_outputs =
      (List.range ((predictLayers1 ops nn inputs cg).getLastD default).neurons.length).map
        (fun o =>
          layerOutput ((predictLayers1 ops nn inputs cg).getLastD default) o *
            ((nn.output_norm.getD o (0, 1)).2 - (nn.output_norm.getD o (0, 1)).1) +
            (nn.output_norm.getD o (0, 1)).1) ∧
    (Predict ops nn inputs true).dOutputs_dInputs =
      (List.range ((predictLayers1 ops nn inputs true).getLastD default).neurons.length).map
        (fun o =>
          (List.range ((nn.total_layers.headD default).neurons.length)).map fun k =>
            layerGrad
              (rescaleOutputLayer nn.output_norm
                ((nn.total_layers.headD default).neurons.length)
                ((predictLayers1 ops nn inputs true).getLastD default)) o k) := by
  have hlen1 : (predictLayers1 ops nn inputs cg).length = nn.total_layers.length :=
    predictLayers1_length ops nn inputs cg (by omega)
  have h0 : (Predict ops nn inputs cg).total_layers.getD 0 default =
      nn.updateInputLayer inputs cg := by
    rw [Predict_total_layers, getD_dropLast_append _ _ _ (by omega),
      predictLayers1_getD_zero]
  refine ⟨Predict_last_inputs ops nn inputs cg, fun n => rfl, h0, ?_,
    Predict_ANN_outputs ops nn inputs cg, Predict_dOutputs_dInputs ops nn inputs⟩
  intro i hi
  rw [h0, layerOutput_updateInputLayer nn inputs cg hi]

/-- C7 witness: the frame property instantiated at a concrete network and
input. -/
theorem C7_witness :
    (Predict ratOps net1 [5] true).last_inputs = net1.last_inputs :=
  (C7_predict_overwrites_all_but_last_inputs ratOps net1 [5] true
    (by norm_num [net1])).1

/-- C9: the single-point cache compares the normalised inputs against the
input layer's currently stored neuron outputs, with no record of whether a
previous evaluation completed: whenever every normalised input equals the
stored output — as on a first call whose normalised inputs happen to equal
the initial neuron values — steps 2-3 are skipped (hidden layers and
output-layer input/output state are untouched) and `ANN_outputs` is just
the de-normalisation of the output layer's previously stored outputs,
independent of the weights. -/
theorem C9_cache_hit_skips_forward_pass {K : Type} [LinearOrderedField K]
    (ops : ScalarOps K) (nn : CNeuralNetwork K) (inputs : List K) (cg : Bool)
    (hL : 2 ≤ nn.total_layers.length)
    (hsame : ∀ i < (nn.total_layers.headD default).neurons.length,
      nn.normalizedInput inputs i = layerOutput (nn.total_layers.headD default) i) :
    (∀ l, 1 ≤ l → l + 1 < nn.total_layers.length →
      (Predict ops nn inputs cg).total_layers.getD l default =
        nn.total_layers.getD l default) ∧
    (∀ o : ℕ,
      layerOutput
          ((Predict ops nn inputs cg).total_layers.getD
            (nn.total_layers.length - 1) default) o =
        layerOutput (nn.total_layers.getD (nn.total_layers.length - 1) default) o ∧
      layerInput
          ((Predict ops nn inputs cg).total_layers.getD
            (nn.total_layers.length - 1) default) o =
        layerInput (nn.total_layers.getD (nn.total_layers.length - 1) default) o) ∧
    (Predict ops nn inputs cg).ANN_outputs =
      (List.range
          ((nn.total_layers.getD (nn.total_layers.length - 1) default).neurons.length)).map
        (fun o =>
          layerOutput (nn.total_layers.getD (nn.total_layers.length - 1) default) o *
            ((nn.output_norm.getD o (0, 1)).2 - (nn.output_norm.getD o (0, 1)).1) +
            (nn.output_norm.getD o (0, 1)).1) := by
  have hsp : nn.samePoint inputs = true := (samePoint_eq_true_iff nn inputs).2 hsame
  have hlen1 : (predictLayers1 ops nn inputs cg).length = nn.total_layers.length :=
    predictLayers1_length ops nn inputs cg (by omega)
  have hlast : (predictLayers1 ops nn inputs cg).getLastD default =
      nn.total_layers.getD (nn.total_layers.length - 1) default := by
    rw [getLastD_eq_getD, hlen1,
      predictLayers1_getD_same ops nn inputs cg hsp (by omega)]
  refine ⟨?_, ?_, ?_⟩
  · intro l hl1 hl2
    rw [Predict_total_layers, getD_dropLast_append _ _ _ (by omega),
      predictLayers1_getD_same ops nn inputs cg hsp hl1]
  · intro o
    rw [Predict_total_layers]
    rw [getD_dropLast_append_last' _ _ _ (by omega)]
    cases cg with
    | false =>
        simp only [Bool.false_eq_true, if_false]
        rw [hlast]
        exact ⟨rfl, rfl⟩
    | true =>
        simp only [if_true, hlast]
        exact ⟨layerOutput_rescaleOutputLayer _ _ _ o,
          layerInput_rescaleOutputLayer _ _ _ o⟩
  · rw [Predict_ANN_outputs, hlast]

/-- C9 witness: `net2` computes `x + 1` on the normalised input, yet the
very first call at the raw input `0` (whose normalised value `0` equals
the freshly constructed neurons' stored output `0`) returns the
de-normalised initial output `0`, not the network function value `1`. -/
theorem C9_witness :
    (Predict ratOps net2 [0] true).ANN_outputs = [0] := by
  have h := (C9_cache_hit_skips_forward_pass ratOps net2 [0] true
    (by norm_num [net2])
    (by
      intro i hi
      have hlen : (net2.total_layers.headD default).neurons.length = 1 := by
        norm_num [net2, zNeuron]
      rw [hlen] at hi
      have hi0 : i = 0 := by omega
      subst hi0
      norm_num [net2, zNeuron, normalizedInput, layerOutput])).2.2
  rw [h]
  norm_num [net2, zNeuron, layerOutput, List.range_succ]

/-- C2: with gradients requested and the forward pass actually running,
the input layer's gradient is seeded `1/(inMax-inMin)` on the diagonal and
`0` off-diagonal; after each non-input layer's activation step the stored
gradient of neuron `i` w.r.t. input `k` is the activation-derivative
factor at that neuron's input times `ComputedOutputdInput`, the sum over
`j` of `weights[l-1][i][j]` times the stored gradient of neuron `j` of
layer `l-1`; and the returned jacobian entry `[o][k]` is that quantity at
the output layer scaled by `(outMax[o]-outMin[o])`. -/
theorem C2_gradient_chain_rule {K : Type} [LinearOrderedField K]
    (ops : ScalarOps K) (nn : CNeuralNetwork K) (inputs : List K)
    (hL : 2 ≤ nn.total_layers.length)
    (hsp : nn.samePoint inputs = false)
    (hgrad0 : ∀ i < (nn.total_layers.headD default).neurons.length,
      ((nn.total_layers.headD default).neurons.getD i default).gradient =
        List.replicate ((nn.total_layers.headD default).neurons.length) 0) :
    (∀ i < (nn.total_layers.headD default).neurons.length,
      ∀ k < (nn.total_layers.headD default).neurons.length,
        layerGrad ((Predict ops nn inputs true).total_layers.getD 0 default) i k =
          if k = i then
            1 / ((nn.input_norm.getD i (0, 1)).2 - (nn.input_norm.getD i (0, 1)).1)
          else 0) ∧
    (∀ l, 1 ≤ l → l + 1 < nn.total_layers.length →
      ∀ i < ((Predict ops nn inputs true).total_layers.getD l default).neurons.length,
        ∀ k < (nn.total_layers.headD default).neurons.length,
          layerGrad ((Predict ops nn inputs true).total_layers.getD l default) i k =
            activationDeriv ops (nn.activation_function_types.getD l .NONE)
                (layerInput ((Predict ops nn inputs true).total_layers.getD l default) i) *
              ComputedOutputdInput ((nn.weights_mat.getD (l - 1) []).getD i [])
                ((Predict ops nn inputs true).total_layers.getD (l - 1) default) k) ∧
    (∀ o < ((Predict ops nn inputs true).total_layers.getD
        (nn.total_layers.length - 1) default).neurons.length,
      ∀ k < (nn.total_layers.headD default).neurons.length,
        ((Predict ops nn inputs true).dOutputs_dInputs.getD o []).getD k 0 =
          ((nn.output_norm.getD o (0, 1)).2 - (nn.output_norm.getD o (0, 1)).1) *
            (activationDeriv ops
                (nn.activation_function_types.getD (nn.total_layers.length - 1) .NONE)
                (layerInput ((Predict ops nn inputs true).total_layers.getD
                  (nn.total_layers.length - 1) default) o) *
              ComputedOutputdInput
                ((nn.weights_mat.getD (nn.total_layers.length - 2) []).getD o [])
                ((Predict ops nn inputs true).total_layers.getD
                  (nn.total_layers.length - 2) default) k)) := by
  have hlen1 : (predictLayers1 ops nn inputs true).length = nn.total_layers.length :=
    predictLayers1_length ops nn inputs true (by omega)
  have hmid : ∀ l, l + 1 < nn.total_layers.length →
      (Predict ops nn inputs true).total_layers.getD l default =
        (predictLayers1 ops nn inputs true).getD l default := by
    intro l hl
    rw [Predict_total_layers, getD_dropLast_append _ _ _ (by omega)]
  refine ⟨?_, ?_, ?_⟩
  · intro i hi k hk
    rw [hmid 0 (by omega), predictLayers1_getD_zero,
      layerGrad_updateInputLayer_true nn inputs k hi, hgrad0 i hi]
    by_cases hki : k = i
    · subst hki
      rw [List.getD_eq_getElem?_getD,
        List.getElem?_set_self (by simpa using hi), Option.getD_some, if_pos rfl]
    · rw [List.getD_eq_getElem?_getD, List.getElem?_set_ne (Ne.symm hki),
        if_neg hki, List.getElem?_replicate]
      by_cases hkn : k < (nn.total_layers.headD default).neurons.length
      · rw [if_pos hkn, Option.getD_some]
      · rw [if_neg hkn]
        rfl
  · intro l hl1 hl2 i hi k hk
    have hfwd := predictLayers1_getD_forward ops nn inputs true hsp hl1 (by omega)
    have hprev : (Predict ops nn inputs true).total_layers.getD (l - 1) default =
        (predictLayers1 ops nn inputs true).getD (l - 1) default :=
      hmid (l - 1) (by omega)
    rw [hmid l (by omega)] at hi ⊢
    rw [hfwd] at hi ⊢
    rw [layerForward_length] at hi
    rw [layerGrad_layerForward_true ops _ _ _ _ _ hi hk,
      layerInput_layerForward ops _ _ _ _ _ _ hi, hprev]
  · intro o ho k hk
    have hlast : (Predict ops nn inputs true).total_layers.getD
        (nn.total_layers.length - 1) default =
        rescaleOutputLayer nn.output_norm
          ((nn.total_layers.headD default).neurons.length)
          ((predictLayers1 ops nn inputs true).getLastD default) := by
      rw [Predict_total_layers, getD_dropLast_append_last' _ _ _ (by omega)]
      simp
    have hgl : (predictLayers1 ops nn inputs true).getLastD default =
        (predictLayers1 ops nn inputs true).getD
          (nn.total_layers.length - 1) default := by
      rw [getLastD_eq_getD, hlen1]
    have hfwd := predictLayers1_getD_forward ops nn inputs true hsp
      (l := nn.total_layers.length - 1) (by omega) (by omega)
    have hprev : (Predict ops nn inputs true).total_layers.getD
        (nn.total_layers.length - 2) default =
        (predictLayers1 ops nn inputs true).getD
          (nn.total_layers.length - 2) default :=
      hmid (nn.total_layers.length - 2) (by omega)
    have hl12 : nn.total_layers.length - 1 - 1 = nn.total_layers.length - 2 := by
      omega
    rw [hlast] at ho
    rw [rescaleOutputLayer_length, hgl, hfwd, layerForward_length] at ho
    rw [Predict_dOutputs_dInputs,
      getD_range_map _ (by rw [hgl, hfwd, layerForward_length]; exact ho) _,
      getD_range_map _ hk _,
      layerGrad_rescaleOutputLayer _ _ _
        (by rw [hgl, hfwd, layerForward_length]; exact ho) hk,
      hgl, hfwd, hl12,
      layerGrad_layerForward_true ops _ _ _ _ _ ho hk,
      layerInput_layerForward ops _ _ _ _ _ _ ho]
    rw [hlast, hgl, hfwd, hl12]
    rw [layerInput_rescaleOutputLayer]
    rw [layerInput_layerForward ops _ _ _ _ _ _ ho, hprev]

/-- C2 witness: the input-layer seeding instantiated on `net1` at the
input `[1/2]`, with every hypothesis discharged concretely. -/
theorem C2_gradient_chain_rule_witness :
    layerGrad ((Predict ratOps net1 [1/2] true).total_layers.getD 0 default) 0 0 =
      if 0 = 0 then
        1 / ((net1.input_norm.getD 0 (0, 1)).2 - (net1.input_norm.getD 0 (0, 1)).1)
      else 0 :=
  (C2_gradient_chain_rule ratOps net1 [1/2] (by norm_num [net1])
    (by
      norm_num [samePoint, normalizedInput, layerOutput, net1, zNeuron,
        List.range_succ])
    (by
      intro i hi
      have hlen : (net1.total_layers.headD default).neurons.length = 1 := by
        norm_num [net1, zNeuron]
      rw [hlen] at hi
      have hi0 : i = 0 := by omega
      subst hi0
      rfl)).1 0 (by norm_num [net1, zNeuron]) 0 (by norm_num [net1, zNeuron])

/-- C1: on `net1` (linear 1-1-1 network, output normalisation `(0,2)`), a
second `Predict` call with the identical raw input reuses the stored
outputs, but the de-normalisation loop multiplies the output layer's
stored gradient by `(outMax-outMin)` again: the first call returns the
jacobian `[[2]]`, the second identical call returns `[[4]]`.  The
outputs, by contrast, are reproduced exactly. -/
theorem C1_cache_hit_rescales_stored_jacobian :
    (Predict ratOps net1 [1/2] true).ANN_outputs = [1] ∧
    (Predict ratOps (Predict ratOps net1 [1/2] true) [1/2] true).ANN_outputs = [1] ∧
    (Predict ratOps net1 [1/2] true).dOutputs_dInputs = [[2]] ∧
    (Predict ratOps (Predict ratOps net1 [1/2] true) [1/2] true).dOutputs_dInputs
      = [[4]] := by
  norm_num [Predict, predictLayers1, updateInputLayer, samePoint, normalizedInput,
    layerOutput, layerGrad, layerForward, forwardLayers, rescaleOutputLayer,
    ComputeX, ComputedOutputdInput, activationOutput, activationDeriv, net1,
    zNeuron, ratOps, List.range_succ]

/-- C6: for the one-layer identity network with input and output
normalisation `(a, b)`, `a ≠ b`, `Predict` maps the raw input `[a]` to
`[a]` and the raw input `[b]` to `[b]`. -/
theorem C6_identity_network_round_trip {K : Type} [LinearOrderedField K]
    (ops : ScalarOps K) (a b : K) (hab : a ≠ b) :
    (Predict ops (idNet a b) [a] false).ANN_outputs = [a] ∧
    (Predict ops (idNet a b) [b] false).ANN_outputs = [b] := by
  have hba : b - a ≠ 0 := sub_ne_zero.2 (Ne.symm hab)
  have h0 : (a - a) / (b - a) = 0 := by rw [sub_self, zero_div]
  have h1 : (b - a) / (b - a) = 1 := div_self hba
  constructor
  · norm_num [Predict, predictLayers1, updateInputLayer, samePoint,
      normalizedInput, layerOutput, layerGrad, layerForward, forwardLayers,
      rescaleOutputLayer, ComputeX, ComputedOutputdInput, activationOutput,
      activationDeriv, idNet, List.range_succ, h0]
  · norm_num [Predict, predictLayers1, updateInputLayer, samePoint,
      normalizedInput, layerOutput, layerGrad, layerForward, forwardLayers,
      rescaleOutputLayer, ComputeX, ComputedOutputdInput, activationOutput,
      activationDeriv, idNet, List.range_succ, h0, h1]

/-- C6 witness: the round trip instantiated at `a = 0`, `b = 1` over `ℚ`. -/
theorem C6_identity_network_round_trip_witness :
    ((0 : ℚ) ≠ 1) ∧
    ((Predict ratOps (idNet (0 : ℚ) 1) [0] false).ANN_outputs = [0] ∧
      (Predict ratOps (idNet (0 : ℚ) 1) [1] false).ANN_outputs = [1]) :=
  ⟨by norm_num, C6_identity_network_round_trip ratOps 0 1 (by norm_num)⟩

/-- The hyperbolic tangent has derivative `1` at `0`. -/
lemma hasDerivAt_tanh_zero : HasDerivAt Real.tanh 1 0 := by
  have hs := Real.hasDerivAt_sinh 0
  have hc := Real.hasDerivAt_cosh 0
  have hne : Real.cosh 0 ≠ 0 := by
    rw [Real.cosh_zero]
    norm_num
  have hdiv := hs.div hc hne
  have heq : (fun x : ℝ => Real.sinh x / Real.cosh x) = Real.tanh := by
    funext x
    rw [Real.tanh_eq_sinh_div_cosh]
  rw [heq] at hdiv
  convert hdiv using 1
  rw [Real.cosh_zero, Real.sinh_zero]
  norm_num

/-- C5: the gelu output formula of the code is the stated tanh
approximation, but the gradient factor `dy_dx` the code multiplies into
the gradient is not the derivative of that formula: at the neuron input
`x = 0` the code's factor evaluates to `0`, while the derivative of the
coded output formula at `0` is `1/2` (the code omits the `+1` inside
`0.5·(1 + tanh u)`, uses `cosh(x)` instead of `cosh(u)`, and mis-forms
the product rule's second term). -/
theorem C5_gelu_gradient_factor_mismatch :
    activationDeriv ⟨Real.exp, Real.tanh, Real.cosh⟩ ActivationKind.GELU 0 = 0 ∧
    HasDerivAt
      (fun x : ℝ =>
        activationOutput ⟨Real.exp, Real.tanh, Real.cosh⟩ ActivationKind.GELU x)
      (1 / 2) 0 ∧
    (0 : ℝ) ≠ 1 / 2 := by
  refine ⟨?_, ?_, by norm_num⟩
  · simp [activationDeriv, Real.tanh_zero]
  · have h3 : HasDerivAt (fun x : ℝ => x ^ 3) (3 * 0 ^ 2) 0 := by
      simpa using hasDerivAt_pow 3 (0 : ℝ)
    have hinner : HasDerivAt (fun x : ℝ => x + 0.044715 * x ^ 3)
        (1 + 0.044715 * (3 * 0 ^ 2)) 0 :=
      (hasDerivAt_id' (0 : ℝ)).add (h3.const_mul 0.044715)
    have hu : HasDerivAt
        (fun x : ℝ => 0.7978845608028654 * (x + 0.044715 * x ^ 3))
        (0.7978845608028654 * (1 + 0.044715 * (3 * 0 ^ 2))) 0 :=
      hinner.const_mul 0.7978845608028654
    have ht : HasDerivAt Real.tanh 1
        ((fun x : ℝ => 0.7978845608028654 * (x + 0.044715 * x ^ 3)) 0) := by
      convert hasDerivAt_tanh_zero using 2
      norm_num
    have hcomp : HasDerivAt
        (fun x : ℝ => Real.tanh (0.7978845608028654 * (x + 0.044715 * x ^ 3)))
        (1 * (0.7978845608028654 * (1 + 0.044715 * (3 * 0 ^ 2)))) 0 := by
      simpa [Function.comp] using ht.comp 0 hu
    have hone : HasDerivAt
        (fun x : ℝ => 1 + Real.tanh (0.7978845608028654 * (x + 0.044715 * x ^ 3)))
        (1 * (0.7978845608028654 * (1 + 0.044715 * (3 * 0 ^ 2)))) 0 :=
      hcomp.const_add 1
    have hlin : HasDerivAt (fun x : ℝ => 0.5 * x) (0.5 : ℝ) 0 := by
      simpa using (hasDerivAt_id' (0 : ℝ)).const_mul (0.5 : ℝ)
    have hmul := hlin.mul hone
    simp only [activationOutput]
    convert hmul using 1
    norm_num [Real.tanh_zero]

end CNeuralNetwork

/-! ### Claims about the Selector -/

/-- A non-empty match list exists exactly when the two name lists share a
name. -/
lemma matchList_ne_nil (varNames netNames : List String) :
    ((List.range varNames.length).flatMap fun ci =>
        (List.range netNames.length).filterMap fun ni =>
          if varNames.getD ci "" = netNames.getD ni "" then some (ci, ni)
          else none) ≠ [] ↔
      ∃ name ∈ netNames, name ∈ varNames := by
  rw [← List.isEmpty_eq_false, List.isEmpty_eq_false_iff_exists_mem]
  constructor
  · rintro ⟨⟨ci, ni⟩, hmem⟩
    rw [List.mem_flatMap] at hmem
    obtain ⟨a, ha, hmem⟩ := hmem
    rw [List.mem_filterMap] at hmem
    obtain ⟨b, hb, heq⟩ := hmem
    rw [List.mem_range] at ha
    rw [List.mem_range] at hb
    by_cases hc : varNames.getD a "" = netNames.getD b ""
    · refine ⟨netNames.getD b "", ?_, ?_⟩
      · rw [getD_of_lt _ hb]
        exact List.get_mem _ _ _
      · rw [← hc, getD_of_lt _ ha]
        exact List.get_mem _ _ _
    · rw [if_neg hc] at heq
      cases heq
  · rintro ⟨name, hnet, hvar⟩
    obtain ⟨ci, hci, hci2⟩ := List.mem_iff_getElem.1 hvar
    obtain ⟨ni, hni, hni2⟩ := List.mem_iff_getElem.1 hnet
    refine ⟨(ci, ni), ?_⟩
    rw [List.mem_flatMap]
    refine ⟨ci, List.mem_range.2 hci, ?_⟩
    rw [List.mem_filterMap]
    refine ⟨ni, List.mem_range.2 hni, ?_⟩
    have hc : varNames.getD ci "" = netNames.getD ni "" := by
      rw [getD_of_lt _ hci, getD_of_lt _ hni]
      simp only [List.get_eq_getElem]
      rw [hci2, hni2]
    rw [if_pos hc]

/-- Membership in the selection is exactly the double-overlap condition of
spec §3. -/
lemma mem_selectedMLPs_iff (c : CLookUpANN) (inputs outputs : List String)
    (n : ℕ) :
    n ∈ selectedMLPs c inputs outputs ↔
      n < GetNANNs c ∧
        (∃ name ∈ (c.networks.getD n ([], [])).1, name ∈ inputs) ∧
        (∃ name ∈ (c.networks.getD n ([], [])).2, name ∈ outputs) := by
  rw [selectedMLPs, List.mem_filter, List.mem_range]
  rw [Bool.and_eq_true, Bool.not_eq_true', Bool.not_eq_true',
    List.isEmpty_eq_false, List.isEmpty_eq_false]
  rw [FindVariableIndices, FindVariableIndices]
  simp only [if_pos, if_neg]
  rw [matchList_ne_nil, matchList_ne_nil]
  tauto

/-- C3 counterexample: with an empty caller-output list, a network whose
inputs match a caller input (`collC3`'s single network matches `"T"`) is
nevertheless *not* selected: the output match list is empty, so the
`isOutput` test in `PairVariableswithMLPs` fails for every network. -/
theorem C3_counterexample_empty_outputs_selects_nothing :
    FindVariableIndices collC3 0 ["T"] true = [(0, 0)] ∧
    (PairVariableswithMLPs collC3 ["T"] []).MLP_indices = [] ∧
    ¬ 0 ∈ (PairVariableswithMLPs collC3 ["T"] []).MLP_indices := by
  decide

/-- C3 (amended): when the caller's output list is empty, the `CIOMap`
constructor indeed skips both consistency checks (it always succeeds), but
selection is not based on inputs alone: the empty output list makes every
network's output match list empty, so no network at all is selected. -/
theorem C3_empty_outputs_skips_checks_and_selects_nothing
    (c : CLookUpANN) (inputs : List String) :
    mkCIOMap c inputs [] = .ok (PairVariableswithMLPs c inputs []) ∧
    (PairVariableswithMLPs c inputs []).MLP_indices = [] := by
  refine ⟨rfl, ?_⟩
  simp [PairVariableswithMLPs, selectedMLPs, FindVariableIndices]

/-- C4: a network is selected iff at least one of its declared inputs
occurs among the caller inputs and at least one of its declared outputs
occurs among the caller outputs; on the concrete two-network scenario of
spec §8 both networks are selected with full 2-entry input maps, 1-entry
output maps, and no consistency-check failure. -/
theorem C4_selection_iff_and_concrete_scenario :
    (∀ (c : CLookUpANN) (inputs outputs : List String),
      inputs ≠ [] → outputs ≠ [] → ∀ n : ℕ,
        n ∈ (PairVariableswithMLPs c inputs outputs).MLP_indices ↔
          n < GetNANNs c ∧
            (∃ name ∈ (c.networks.getD n ([], [])).1, name ∈ inputs) ∧
            (∃ name ∈ (c.networks.getD n ([], [])).2, name ∈ outputs)) ∧
    mkCIOMap collC4 ["T", "p"] ["rho", "mu"] =
      .ok ⟨[0, 1], [[(0, 0), (1, 1)], [(0, 0), (1, 1)]], [[(0, 0)], [(1, 0)]]⟩ := by
  constructor
  · intro c inputs outputs _ _ n
    exact mem_selectedMLPs_iff c inputs outputs n
  · rfl

/-- C4 witness: the selection equivalence instantiated at the concrete
scenario for network index 0. -/
theorem C4_selection_iff_witness :
    0 ∈ (PairVariableswithMLPs collC4 ["T", "p"] ["rho", "mu"]).MLP_indices ↔
      0 < GetNANNs collC4 ∧
        (∃ name ∈ (collC4.networks.getD 0 ([], [])).1, name ∈ ["T", "p"]) ∧
        (∃ name ∈ (collC4.networks.getD 0 ([], [])).2, name ∈ ["rho", "mu"]) :=
  C4_selection_iff_and_concrete_scenario.1 collC4 ["T", "p"] ["rho", "mu"]
    (by decide) (by decide) 0

/-! ### Claims about the definition-file reader -/

/-- C8 counterexample: a header in which `[input names]` appears before
the layer-count tag does not produce a thrown parse error — the handler
performs the out-of-bounds access `n_neurons[0]` on the still-empty
neuron-count vector (undefined behaviour in C++), which is a different
outcome than the error the claim requires. -/
theorem C8_counterexample_input_names_before_layercount :
    ReadMLPFile ["<header>", "[input names]", "T", "</header>"] =
      ReadOutcome.oob := by
  simp [ReadMLPFile, SkipToFlag, headerLoop, initReadState]

/-- C8 (amended): `ReadMLPFile` raises a fatal parse error when
`[neurons per layer]` or `[activation function]` is encountered before the
layer count and when the header ends without input-name or output-name
blocks; encountering `[input names]` or `[output names]` before the layer
count instead performs an unchecked out-of-bounds vector access (not a
raised error). -/
theorem C8_header_error_conditions :
    (∀ (st : CReadNeuralNetwork) (rest : List String),
      st.found_layercount = false →
        headerLoop st ("[neurons per layer]" :: rest) =
          .thrown "No layer count provided before defining neuron count per layer") ∧
    (∀ (st : CReadNeuralNetwork) (rest : List String),
      st.found_layercount = false →
        headerLoop st ("[activation function]" :: rest) =
          .thrown "No layer count provided before providing layer activation functions") ∧
    (∀ (st : CReadNeuralNetwork) (rest : List String),
      st.n_neurons = [] → headerLoop st ("[input names]" :: rest) = .oob) ∧
    (∀ (st : CReadNeuralNetwork) (rest : List String),
      st.n_neurons = [] → headerLoop st ("[output names]" :: rest) = .oob) ∧
    (∀ st : CReadNeuralNetwork,
      st.found_input_names = false ∨ st.found_output_names = false →
        ∃ msg, finalChecks st = ReadOutcome.thrown msg) ∧
    (∀ (lines : List String) (st : CReadNeuralNetwork),
      ReadMLPFile lines = .ok st →
        st.found_input_names = true ∧ st.found_output_names = true) := by
  refine ⟨?_, ?_, ?_, ?_, ?_, ?_⟩
  · intro st rest h
    simp [headerLoop, h]
  · intro st rest h
    simp [headerLoop, h]
  · intro st rest h
    simp [headerLoop, h]
  · intro st rest h
    simp [headerLoop, h]
  · intro st h
    rcases h with h | h
    · exact ⟨"No MLP input variable names provided", by simp [finalChecks, h]⟩
    · by_cases h2 : st.found_input_names
      · exact ⟨"No MLP input variable names provided", by simp [finalChecks, h, h2]⟩
      · exact ⟨"No MLP input variable names provided", by simp [finalChecks, h2]⟩
  · intro lines st h
    rw [ReadMLPFile] at h
    cases hh : headerLoop initReadState (SkipToFlag lines "<header>") with
    | ok st2 =>
        rw [hh] at h
        simp only [finalChecks] at h
        by_cases h1 : st2.found_input_names
        · by_cases h2 : st2.found_output_names
          · simp [h1, h2] at h
            subst h
            exact ⟨h1, h2⟩
          · simp [h1, h2] at h
        · simp [h1] at h
    | thrown msg =>
        rw [hh] at h
        cases h
    | oob =>
        rw [hh] at h
        cases h

/-- C8 witness: the error conditions instantiated at the initial reader
state. -/
theorem C8_header_error_conditions_witness :
    headerLoop initReadState ["[neurons per layer]"] =
      ReadOutcome.thrown
        "No layer count provided before defining neuron count per layer" ∧
    headerLoop initReadState ["[input names]"] = ReadOutcome.oob :=
  ⟨C8_header_error_conditions.1 initReadState [] rfl,
    C8_header_error_conditions.2.2.1 initReadState [] rfl⟩

/-! ### Claims about the builder and SizeWeights -/

lemma foldl_push_hiddenLayers {K : Type} [LinearOrderedField K] (hs : List ℕ)
    (b : MLPBuild K) :
    (hs.foldl (fun b n => PushHiddenLayer b n) b).hiddenLayers =
      b.hiddenLayers ++ hs.map (newLayer K) := by
  induction hs generalizing b with
  | nil => simp
  | cons a t ih =>
      rw [List.foldl_cons, ih]
      simp [PushHiddenLayer]

lemma foldl_push_n_hidden {K : Type} [LinearOrderedField K] (hs : List ℕ)
    (b : MLPBuild K) :
    (hs.foldl (fun b n => PushHiddenLayer b n) b).n_hidden_layers =
      b.n_hidden_layers + hs.length := by
  induction hs generalizing b with
  | nil => simp
  | cons a t ih =>
      rw [List.foldl_cons, ih]
      simp [PushHiddenLayer]
      omega

lemma foldl_push_inputLayer {K : Type} [LinearOrderedField K] (hs : List ℕ)
    (b : MLPBuild K) :
    (hs.foldl (fun b n => PushHiddenLayer b n) b).inputLayer = b.inputLayer := by
  induction hs generalizing b with
  | nil => rfl
  | cons a t ih =>
      rw [List.foldl_cons, ih]
      rfl

lemma foldl_push_outputLayer {K : Type} [LinearOrderedField K] (hs : List ℕ)
    (b : MLPBuild K) :
    (hs.foldl (fun b n => PushHiddenLayer b n) b).outputLayer = b.outputLayer := by
  induction hs generalizing b with
  | nil => rfl
  | cons a t ih =>
      rw [List.foldl_cons, ih]
      rfl

lemma buildNetwork_inputLayer {K : Type} [LinearOrderedField K] (nIn : ℕ)
    (hs : List ℕ) (nOut : ℕ) :
    (buildNetwork K nIn hs nOut).inputLayer = some (newLayer K nIn) := by
  simp [buildNetwork, DefineOutputLayer, foldl_push_inputLayer,
    DefineInputLayer, emptyBuild]

lemma buildNetwork_outputLayer {K : Type} [LinearOrderedField K] (nIn : ℕ)
    (hs : List ℕ) (nOut : ℕ) :
    (buildNetwork K nIn hs nOut).outputLayer = some (newLayer K nOut) := by
  simp [buildNetwork, DefineOutputLayer]

lemma buildNetwork_hiddenLayers {K : Type} [LinearOrderedField K] (nIn : ℕ)
    (hs : List ℕ) (nOut : ℕ) :
    (buildNetwork K nIn hs nOut).hiddenLayers = hs.map (newLayer K) := by
  simp [buildNetwork, DefineOutputLayer, foldl_push_hiddenLayers,
    DefineInputLayer, emptyBuild]

lemma buildNetwork_n_hidden {K : Type} [LinearOrderedField K] (nIn : ℕ)
    (hs : List ℕ) (nOut : ℕ) :
    (buildNetwork K nIn hs nOut).n_hidden_layers = hs.length := by
  simp [buildNetwork, DefineOutputLayer, foldl_push_n_hidden,
    DefineInputLayer, emptyBuild]

lemma map_newLayer_get? {K : Type} [LinearOrderedField K] (hs : List ℕ) {i : ℕ}
    (hi : i < hs.length) :
    (hs.map (newLayer K)).get? i = some (newLayer K (hs.getD i 0)) := by
  rw [List.get?_eq_getElem?]
  simp [List.getElem?_map, List.getElem?_eq_getElem hi, getD_of_lt _ hi]

/-- C10: `SizeWeights` after a build sequence with no `PushHiddenLayer`
call performs out-of-bounds accesses (`hiddenLayers[0]` and
`hiddenLayers[n_hidden_layers-1]` on an empty vector), modelled as the
failure outcome `none`; for every build sequence with at least one hidden
layer all container accesses are in range (`some`), and the resulting
shapes satisfy `len(weights) = len(layers) - 1`,
`len(weights[l]) = neurons(l+1)` and `len(weights[l][i]) = neurons(l)`. -/
theorem C10_sizeweights_requires_hidden_layer (K : Type)
    [LinearOrderedField K] :
    (∀ nIn nOut : ℕ, SizeWeights (buildNetwork K nIn [] nOut) = none) ∧
    (∀ (nIn nOut : ℕ) (hs : List ℕ), hs ≠ [] →
      ∃ net : CNeuralNetwork K,
        SizeWeights (buildNetwork K nIn hs nOut) = some net ∧
        net.total_layers.length = (nIn :: hs ++ [nOut]).length ∧
        net.weights_mat.length = (nIn :: hs ++ [nOut]).length - 1 ∧
        (∀ l < net.weights_mat.length,
          (net.weights_mat.getD l []).length = (nIn :: hs ++ [nOut]).getD (l + 1) 0 ∧
          ∀ i < (net.weights_mat.getD l []).length,
            ((net.weights_mat.getD l []).getD i []).length =
              (nIn :: hs ++ [nOut]).getD l 0)) := by
  constructor
  · intro nIn nOut
    rfl
  · intro nIn nOut hs hne
    have hlen : 0 < hs.length := List.length_pos.2 hne
    have hsw : SizeWeights (buildNetwork K nIn hs nOut) = some
        { input_names := (buildNetwork K nIn hs nOut).input_names
          output_names := (buildNetwork K nIn hs nOut).output_names
          total_layers :=
            ((newLayer K nIn :: hs.map (newLayer K) ++ [newLayer K nOut]).map fun lay =>
              ⟨lay.neurons.map fun n => { n with gradient := List.replicate nIn 0 }⟩)
          weights_mat :=
            List.replicate (hs.getD 0 0) (List.replicate nIn (0 : K)) ::
              ((List.range (hs.length - 1)).map fun i =>
                List.replicate (hs.getD (i + 1) 0)
                  (List.replicate (hs.getD i 0) (0 : K))) ++
              [List.replicate nOut (List.replicate (hs.getD (hs.length - 1) 0) (0 : K))]
          input_norm := (buildNetwork K nIn hs nOut).input_norm
          output_norm := (buildNetwork K nIn hs nOut).output_norm
          last_inputs := []
          ANN_outputs := List.replicate nOut 0
          dOutputs_dInputs := List.replicate nOut (List.replicate nIn 0)
          activation_function_types :=
            (buildNetwork K nIn hs nOut).activation_function_types } := by
      rw [SizeWeights, buildNetwork_inputLayer, buildNetwork_outputLayer,
        buildNetwork_hiddenLayers, buildNetwork_n_hidden]
      rw [mapM_eq_some_map _
        (fun i => List.replicate (hs.getD (i + 1) 0)
          (List.replicate (hs.getD i 0) (0 : K))) _ ?_]
      · rw [map_newLayer_get? hs hlen, map_newLayer_get? hs (by omega)]
        simp [newLayer]
      · intro i hi
        rw [List.mem_range] at hi
        rw [map_newLayer_get? hs (by omega), map_newLayer_get? hs (by omega)]
        simp [newLayer]
    refine ⟨_, hsw, ?_, ?_, ?_⟩
    · simp
    · simp
      omega
    · dsimp only
      intro l hl
      simp only [List.length_cons, List.length_append, List.length_map,
        List.length_range, List.length_nil] at hl ⊢
      have hl2 : l < hs.length + 1 := by omega
      rcases Nat.lt_or_ge l 1 with h0 | h1
      · have hz : l = 0 := by omega
        subst hz
        constructor
        · rw [getD_append_left (by simp <;> omega) _, List.getD_cons_zero,
            getD_append_left (by simp <;> omega) _, List.getD_cons_succ]
          simp [getD_of_lt _ hlen]
        · intro i hi
          rw [getD_append_left (by simp <;> omega) _, List.getD_cons_zero] at hi ⊢
          rw [List.length_replicate] at hi
          rw [getD_replicate hi, getD_append_left (by simp <;> omega) _,
            List.getD_cons_zero]
          simp
      · rcases Nat.lt_or_ge l hs.length with hmid | hlast
        · obtain ⟨m, rfl⟩ : ∃ m, l = m + 1 := ⟨l - 1, by omega⟩
          have hm : m < hs.length - 1 := by omega
          constructor
          · rw [getD_append_left (by simp <;> omega) _, List.getD_cons_succ,
              getD_range_map _ hm, getD_append_left (by simp <;> omega) _,
              List.getD_cons_succ]
            simp
          · intro i hi
            rw [getD_append_left (by simp <;> omega) _, List.getD_cons_succ,
              getD_range_map _ hm] at hi ⊢
            rw [List.length_replicate] at hi
            rw [getD_replicate hi, getD_append_left (by simp <;> omega) _,
              List.getD_cons_succ]
            simp
        · have hz : l = hs.length := by omega
          subst hz
          have e1 : hs.length - (hs.length - 1 + 1) = 0 := by omega
          constructor
          · rw [getD_append_right (by simp <;> omega) _,
              getD_append_right (by simp <;> omega) _]
            simp only [List.length_cons, List.length_map, List.length_range,
              List.length_nil, e1]
            simp
          · intro i hi
            obtain ⟨m, hm⟩ : ∃ m, hs.length = m + 1 := ⟨hs.length - 1, by omega⟩
            rw [getD_append_right (by simp <;> omega) _] at hi ⊢
            simp only [List.length_cons, List.length_map, List.length_range,
              List.length_nil] at hi ⊢
            rw [show hs.length - (hs.length - 1 + 1) = 0 from by omega] at hi ⊢
            rw [List.getD_cons_zero] at hi ⊢
            rw [List.length_replicate] at hi
            rw [getD_replicate hi, getD_append_left (by simp <;> omega) _, hm,
              List.getD_cons_succ]
            simp [hm]

/-- C10 witness: the build sequence `DefineInputLayer 1; PushHiddenLayer 2;
DefineOutputLayer 1` sizes successfully with the stated shapes. -/
theorem C10_sizeweights_witness :
    ∃ net : CNeuralNetwork ℚ,
      SizeWeights (buildNetwork ℚ 1 [2] 1) = some net ∧
      net.total_layers.length = ((1 : ℕ) :: [2] ++ [1]).length ∧
      net.weights_mat.length = ((1 : ℕ) :: [2] ++ [1]).length - 1 ∧
      (∀ l < net.weights_mat.length,
        (net.weights_mat.getD l []).length = ((1 : ℕ) :: [2] ++ [1]).getD (l + 1) 0 ∧
        ∀ i < (net.weights_mat.getD l []).length,
          ((net.weights_mat.getD l []).getD i []).length =
            ((1 : ℕ) :: [2] ++ [1]).getD l 0) :=
  (C10_sizeweights_requires_hidden_layer ℚ).2 1 1 [2] (by decide)

end MLPToolbox
